import Mathlib

/-!
Verification development for the single-file pipeline application `app.py`.

The program chains four LLM-backed stages (UI data model, Gherkin stories,
test cases, feature file) behind a Gradio surface, with an EasyOCR detection
step feeding stage 1.  We shallowly embed the pipeline logic: the OCR engine
and the completion service are modelled as explicit oracles passed to the
stage functions, Python exceptions become `Except` values, and Python
f-strings become explicit concatenations of the literal template pieces that
appear in the source.  OCR confidence scores (Python floats) are modelled as
rationals; the only comparison performed on them is the exact threshold test
`conf > 0.5`, which is exact in either representation.
-/

/-- Python truthiness of an optional string: `None` and the empty string are
falsy, every other string is truthy. -/
def pyTruthy : Option String → Bool
  | Option.none => false
  | Option.some s => !s.isEmpty

/-- Rendering of an optional string inside a Python f-string: `None` prints
as the four characters `None`, a string prints as itself. -/
def pyStrOpt : Option String → String
  | Option.none => "None"
  | Option.some s => s

/-- Embedding of the Python idiom `{x if x else fallback}` used by the
prompt templates: the field itself when truthy, the fallback text
otherwise. -/
def fallbackIfFalsy (v : Option String) (fallback : String) : String :=
  if pyTruthy v then pyStrOpt v else fallback

/-- `ContainsSub needle hay` states that `needle` occurs contiguously inside
`hay` (substring occurrence, phrased on the underlying character lists). -/
def ContainsSub (needle hay : String) : Prop :=
  ∃ l r : List Char, hay.data = l ++ needle.data ++ r

/-- Lower-case hexadecimal digit, as produced by Python string formatting. -/
def hexDigit (n : Nat) : Char :=
  if n < 10 then Char.ofNat (48 + n) else Char.ofNat (87 + n)

/-- Four-digit lower-case hexadecimal rendering of a code unit. -/
def hex4 (n : Nat) : String :=
  String.mk [hexDigit (n / 4096 % 16), hexDigit (n / 256 % 16),
             hexDigit (n / 16 % 16), hexDigit (n % 16)]

/-- Escaping of one character inside a JSON string literal, following
Python json.dumps with its default ensure_ascii behavior: quote and
backslash get a backslash escape, the common control characters get their
short escapes, every other character outside printable ASCII is rendered as
a \u escape (with a surrogate pair above the basic plane). -/
def jsonEscapeChar (c : Char) : String :=
  if c = '"' then "\\\""
  else if c = '\\' then "\\\\"
  else if c = '\n' then "\\n"
  else if c = '\r' then "\\r"
  else if c = '\t' then "\\t"
  else if c.toNat = 8 then "\\b"
  else if c.toNat = 12 then "\\f"
  else if 32 ≤ c.toNat ∧ c.toNat ≤ 126 then String.singleton c
  else if c.toNat < 65536 then "\\u" ++ hex4 c.toNat
  else "\\u" ++ hex4 (55296 + (c.toNat - 65536) / 1024) ++
       "\\u" ++ hex4 (56320 + (c.toNat - 65536) % 1024)

/-- JSON string-literal escaping applied characterwise. -/
def jsonEscape (s : String) : String :=
  String.join (s.data.map jsonEscapeChar)

/-- Embedding of Python json.dumps on a flat object with string values and
indent=4, the only shape the program serializes: each field on its own
line indented by four spaces, fields separated by commas. -/
def json_dumps_obj_indent4 (fields : List (String × String)) : String :=
  if fields.isEmpty then "\x7b\x7d"
  else
    "\x7b\n" ++
    String.intercalate ",\n"
      (fields.map (fun kv =>
        "    \"" ++ jsonEscape kv.1 ++ "\": \"" ++ jsonEscape kv.2 ++ "\"")) ++
    "\n\x7d"

/-- One OCR detection: the triple (bounding box, recognized text,
confidence) returned by reader.readtext.  The bounding box is a polygon of
points; the confidence is modelled as a rational. -/
structure Detection where
  bbox : List (Int × Int)
  text : String
  conf : Rat
deriving DecidableEq

/-- One record of the list built by extract_ui_elements:
\x7bcomponent: text, bounding_box: bbox\x7d. -/
structure UIElement where
  component : String
  bounding_box : List (Int × Int)
deriving DecidableEq

/-- The possible values of the screen argument: Python None, a string
(a file path), a numpy array of a given size, or a PIL image. -/
inductive Screen where
  | noneScreen : Screen
  | pathString : String → Screen
  | ndarray : Nat → Screen
  | pilImage : Screen
deriving DecidableEq

/-- The guard condition shared by extract_ui_elements and
generate_ui_data_model:
screen is None or isinstance(screen, str)
or (isinstance(screen, np.ndarray) and screen.size == 0). -/
def isEmptyInput : Screen → Bool
  | Screen.noneScreen => true
  | Screen.pathString _ => true
  | Screen.ndarray n => n == 0
  | Screen.pilImage => false

/-- Embedding of extract_ui_elements.  The OCR engine call
reader.readtext is modelled by the oracle argument `reader`: either the
list of detections it returns or the exception it raises.  On the guard
the function returns the empty list without consulting the oracle; the
for-loop accumulating detections with confidence above 0.5 is embedded as
a left fold that appends to the accumulator. -/
def extract_ui_elements (screen : Screen)
    (reader : Except String (List Detection)) :
    Except String (List UIElement) :=
  if isEmptyInput screen then Except.ok []
  else
    match reader with
    | Except.error e => Except.error e
    | Except.ok result =>
        Except.ok (result.foldl
          (fun detected_ui d =>
            if d.conf > (0.5 : Rat) then
              detected_ui ++ [⟨d.text, d.bbox⟩]
            else detected_ui)
          [])

/-- Outcome of one call to the external completion service:
the returned message content, an openai.OpenAIError, or any other
exception. -/
inductive CompletionResult where
  | success : String → CompletionResult
  | openAIError : String → CompletionResult
  | otherError : String → CompletionResult
deriving DecidableEq

/-- The completion service as an oracle: from the system message and the
user prompt to the outcome of openai.chat.completions.create. -/
def CompletionOracle : Type := String → String → CompletionResult

/-- Embedding of the try/except block shared verbatim by all four stages:
on success return response.choices[0].message.content.strip(); an
OpenAIError is rendered as json.dumps on an error object with the
message prefixed by OpenAI API error; any other exception likewise with
the prefix Unexpected error. -/
def tryCompletion (comp : CompletionOracle) (sys prompt : String) : String :=
  match comp sys prompt with
  | CompletionResult.success content => content.trim
  | CompletionResult.openAIError e =>
      json_dumps_obj_indent4 [("error", "OpenAI API error: " ++ e)]
  | CompletionResult.otherError e =>
      json_dumps_obj_indent4 [("error", "Unexpected error: " ++ e)]

def ui_data_model_system_message : String :=
  "You are an AI assistant trained to generate standardized UI Data Models."

def gherkin_system_message : String :=
  "You are an AI assistant trained to generate structured Gherkin user stories."

def test_cases_system_message : String :=
  "You are an AI assistant trained to generate structured imperative and non-functional test cases for automation."

def feature_file_system_message : String :=
  "You are an AI assistant trained to generate structured feature files with step definitions."

/-- The sentinel string assigned to detected_ui_elements when the detection
list is empty. -/
def detectionSentinel : String :=
  "No UI elements detected from the image. Generating UI data model based on provided user story and summary."

/-- Python repr of one point of a bounding box. -/
def pyReprPoint (p : Int × Int) : String :=
  "[" ++ toString p.1 ++ ", " ++ toString p.2 ++ "]"

/-- Python repr of a bounding box (a list of points). -/
def pyReprBBox (b : List (Int × Int)) : String :=
  "[" ++ String.intercalate ", " (b.map pyReprPoint) ++ "]"

/-- Python str() of the detected-elements list as it is interpolated into
the stage-1 f-string: the repr of a list of dicts (modelled for label
strings without quote or backslash characters, which repr wraps in single
quotes verbatim). -/
def pyStrElements (l : List UIElement) : String :=
  "[" ++
  String.intercalate ", "
    (l.map (fun e =>
      "\x7b\x27component\x27: \x27" ++ e.component ++
      "\x27, \x27bounding_box\x27: " ++ pyReprBBox e.bounding_box ++ "\x7d")) ++
  "]"

def uiP0 : String := "\n    You are a Business System Analyst creating a **UI Data Model** for developers.\n    Below are the provided inputs:\n    - **User Story**: "

def uiP1 : String := "\n    - **Summary/Description**: "

def uiP2 : String := "\n    - **Detected UI Elements (if available)**: "

def uiP3 : String := "\n\n    Generate a **JSON UI Data Model** ensuring:\n    - **Consistency** in naming UI components.\n    - **Hierarchy** with sections, buttons, inputs, icons, etc.\n    - **Clean JSON formatting**.\n\n    Follow this JSON structure:\n    \x7b\n        \x7b\n            <ui-data-model> \n            \"sectionOne\": \n            \x7b \n            \"fieldOne\":<URI>, // e.g. Icon location for fieldOne which is an icon \n            \"fieldTwo\": <STRING>, // e.g. String text for fieldTwo \n            \"fieldThree\": <STRING>, // e.g. String text for fieldThree \n            \"fieldFour\": <STRING>, // e.g. String text for fieldFour \"sectionTwo\":  \n            \x7b\n            \"fieldOne\":<URI>, // e.g. Icon location for fieldOne which is an icon \n            \"fieldTwo\": <STRING>, // e.g. String text for fieldTwo \n            \"fieldThree\": <STRING>, // e.g. String text for fieldThree \n            \"fieldFour\": <dropdown>, // e.g. String text for fieldFour \n                \x7b \n                \"dropDownOption1\": <text>, \n                \"dropDownOption2\": <text>, \n                \"dropDownOption3\": <text>, \n                \x7d, \n                \n            \x7d, \n        \x7d </ui-data-model> </TEMPLATE 1>\n        \x7d\n    \x7d\n\n    Now, generate the UI Data Model in JSON format.\n    "

/-- The stage-1 prompt f-string, with the already-rendered detected-elements
slot passed as a string (matching the source, where detected_ui_elements
holds either the list or the sentinel string by the time the f-string is
evaluated). -/
def ui_data_model_prompt (user_story summary : Option String)
    (detected_ui_elements : String) : String :=
  uiP0 ++ fallbackIfFalsy user_story "No user story provided." ++
  uiP1 ++ fallbackIfFalsy summary "No additional summary provided." ++
  uiP2 ++ detected_ui_elements ++ uiP3

/-- Embedding of generate_ui_data_model.  The guard of the source is
re-checked here exactly as in the code (once in this function, once inside
extract_ui_elements); an exception from the OCR oracle propagates, because
in the source the extract_ui_elements call sits outside the try block,
which only wraps the completion call. -/
def generate_ui_data_model (user_story summary : Option String)
    (screen : Screen) (reader : Except String (List Detection))
    (comp : CompletionOracle) : Except String String :=
  match
    (if isEmptyInput screen then Except.ok []
     else extract_ui_elements screen reader) with
  | Except.error e => Except.error e
  | Except.ok detected =>
      let detected_ui_elements : String :=
        if detected.isEmpty then detectionSentinel else pyStrElements detected
      Except.ok (tryCompletion comp ui_data_model_system_message
        (ui_data_model_prompt user_story summary detected_ui_elements))

def gkP0 : String := "\n    You are an AI assistant trained to generate **structured Gherkin user stories**.\n    \n    Below are the provided inputs:\n    - **User Story**: "

def gkP1 : String := "\n    - **Summary/Description**: "

def gkP2 : String := "\n    - **UI Data Model**: "

def gkP3 : String := "\n\n    ### Instructions:\n    1. **Generate structured Gherkin user stories** based on the inputs.\n    2. Each UI element should have an **associated user interaction**.\n    3. Include **positive & negative scenarios**.\n    4. Provide **expected results** for each action.\n    5. Additionally, generate **non-functional user stories**, including:\n       - **Performance**\n       - **Security**\n       - **Usability**\n       - **Accessibility**\n\n    Now, generate structured and consistent Gherkin scenarios.\n    "

def gherkin_prompt (ui_data_model : String)
    (user_story summary : Option String) : String :=
  gkP0 ++ fallbackIfFalsy user_story "No user story provided." ++
  gkP1 ++ fallbackIfFalsy summary "No additional summary provided." ++
  gkP2 ++ ui_data_model ++ gkP3

/-- Embedding of generate_gherkin_from_ui: compose the prompt and perform
the completion call inside the shared try/except. -/
def generate_gherkin_from_ui (ui_data_model : String)
    (user_story summary : Option String) (comp : CompletionOracle) : String :=
  tryCompletion comp gherkin_system_message
    (gherkin_prompt ui_data_model user_story summary)

def tcP0 : String := "\n    Given the following user story:\n    "

def tcP1 : String := "\n    \n    Generate **structured imperative test cases** suitable for **automation testing**.\n    - Target Platform: "

def tcP2 : String := "\n    - Recommended Technology: "

def tcP3 : String := "\n    - Include proper test steps, assertions, and expected results.\n    - Ensure test cases follow a structured format.\n    - Include all possible scenarios, covering edge cases.\n    - Additionally, generate relevant **non-functional test cases**, including:\n      - **Performance**\n      - **Security**\n      - **Usability**\n      - **Accessibility**\n      - Verify that all UI elements have appropriate **color contrast ratios**.\n      - Ensure all images/icons have **alt text** for screen readers.\n      - Validate that text elements are readable against different backgrounds.\n      - Check that keyboard navigation works seamlessly across UI components.\n      - Test using accessibility tools such as Axe or Lighthouse.\n\n    Now, generate structured imperative and non-functional test cases.\n    "

/-- The stage-3 prompt f-string.  The platform and technology slots have no
conditional in the source: the selector values are interpolated as-is. -/
def test_cases_prompt (gherkin_story : String)
    (platform technology : Option String) : String :=
  tcP0 ++ gherkin_story ++ tcP1 ++ pyStrOpt platform ++
  tcP2 ++ pyStrOpt technology ++ tcP3

/-- Embedding of generate_test_cases: compose the prompt (with no
inspection of the gherkin_story argument) and perform the completion call
inside the shared try/except. -/
def generate_test_cases (gherkin_story : String)
    (platform technology : Option String) (comp : CompletionOracle) : String :=
  tryCompletion comp test_cases_system_message
    (test_cases_prompt gherkin_story platform technology)

def ffP0 : String := "\n    Given the following structured imperative test cases:\n    "

def ffP1 : String := "\n    \n    Follow this feature file template:\n       Feature: [Feature Name]\n\n        Scenario: [Scenario Name]\n          Given [Precondition]\n          When [Action]\n          Then [Expected Outcome]\n\n        @platform-specific\n        Scenario: [Platform-Specific Scenario]\n          Given [Precondition]\n          When [Platform-specific Action]\n          Then [Expected Outcome]\n    Ensure step definitions match the selected platform: "

def ffP2 : String := ".\n    - Use step definitions in the selected format: "

def ffP3 : String := ".\n    - Provide structured Given-When-Then steps specific to the format.\n    - Include **test data** where applicable for input fields.\n    - Ensure alt text is validated for image-based UI elements.\n    - Validate expected color contrast ratios in assertions.\n    Now, generate the feature file with correct step definitions for the selected platform: "

def ffP4 : String := ".\n    \n    - Ensure step definitions include **preconditions**, **actions**, and **expected outcomes**.\n    - Provide **clear assertions** for UI elements and business logic.\n    - Include **test data** where applicable for better test coverage.\n    - Ensure all **accessibility** checks (color contrast, alt text) are validated.\n    - Differentiate **Web vs. Mobile step definitions** where necessary.\n    - Use structured Gherkin syntax with meaningful step descriptions.\n    - Generate **step definitions in Python (Behave), Java (Cucumber), or JS (Cypress)** for automation purposes.\n    "

/-- The stage-4 prompt f-string; the platform slot appears twice. -/
def feature_file_prompt (test_cases : String)
    (platform step_definition_format : Option String) : String :=
  ffP0 ++ test_cases ++ ffP1 ++ pyStrOpt platform ++
  ffP2 ++ pyStrOpt step_definition_format ++ ffP3 ++ pyStrOpt platform ++ ffP4

/-- Embedding of generate_feature_file: a falsy platform selector is
replaced by the literal Web inside the function before the prompt is
composed, then the completion call runs inside the shared try/except. -/
def generate_feature_file (test_cases : String)
    (platform step_definition_format : Option String)
    (comp : CompletionOracle) : String :=
  let platform := if pyTruthy platform then platform else Option.some "Web"
  tryCompletion comp feature_file_system_message
    (feature_file_prompt test_cases platform step_definition_format)

/-- The Gradio components declared in the interface, by their variable
names in the source. -/
inductive Component where
  | user_story_input | summary_input | screen_input
  | platform_input | technology_input | step_definition_input
  | ui_data_model_output | gherkin_output | test_case_output
  | feature_file_output
deriving DecidableEq

/-- One btn.click binding: the stage function it invokes (by name), the
input components whose values are passed to it, and the output
components. -/
structure ClickBinding where
  fn : String
  inputs : List Component
  outputs : List Component
deriving DecidableEq

/-- generate_ui_btn.click(generate_ui_data_model,
inputs=[user_story_input, summary_input, screen_input],
outputs=ui_data_model_output). -/
def generate_ui_btn_click : ClickBinding :=
  ⟨"generate_ui_data_model",
   [Component.user_story_input, Component.summary_input, Component.screen_input],
   [Component.ui_data_model_output]⟩

/-- generate_gherkin_btn.click(generate_gherkin_from_ui,
inputs=ui_data_model_output, outputs=gherkin_output): a single input
component is bound. -/
def generate_gherkin_btn_click : ClickBinding :=
  ⟨"generate_gherkin_from_ui",
   [Component.ui_data_model_output],
   [Component.gherkin_output]⟩

/-- generate_test_cases_btn.click(generate_test_cases,
inputs=[gherkin_output, platform_input, technology_input],
outputs=test_case_output). -/
def generate_test_cases_btn_click : ClickBinding :=
  ⟨"generate_test_cases",
   [Component.gherkin_output, Component.platform_input, Component.technology_input],
   [Component.test_case_output]⟩

/-- generate_feature_file_btn.click(generate_feature_file,
inputs=[test_case_output, platform_input, step_definition_input],
outputs=feature_file_output). -/
def generate_feature_file_btn_click : ClickBinding :=
  ⟨"generate_feature_file",
   [Component.test_case_output, Component.platform_input, Component.step_definition_input],
   [Component.feature_file_output]⟩

/-- The declared parameter list of generate_gherkin_from_ui
(def generate_gherkin_from_ui(ui_data_model, user_story, summary), all
three required). -/
def generate_gherkin_from_ui_params : List String :=
  ["ui_data_model", "user_story", "summary"]

/-- The output shape claimed for failed stages: valid JSON whose single
top-level key is error, rendered exactly as json.dumps with indent=4
renders it, with the given tag occurring inside the value. -/
def IsSingleKeyErrorJson (tag out : String) : Prop :=
  ∃ v : String, out = json_dumps_obj_indent4 [("error", v)] ∧ ContainsSub tag v

/-- A completion oracle that always raises openai.OpenAIError with the
given message. -/
def constOpenAIError (m : String) : CompletionOracle :=
  fun _ _ => CompletionResult.openAIError m

/-- A completion oracle that always raises a non-OpenAIError exception
with the given message. -/
def constOtherError (m : String) : CompletionOracle :=
  fun _ _ => CompletionResult.otherError m

theorem containsSub_of_eq (needle l r hay : String)
    (h : hay = l ++ needle ++ r) : ContainsSub needle hay := by
  refine ⟨l.data, r.data, ?_⟩
  subst h
  simp [String.data_append]

theorem containsSub_mono_right (needle l hay r : String)
    (h : ContainsSub needle hay) : ContainsSub needle (l ++ hay ++ r) := by
  obtain ⟨a, b, hab⟩ := h
  refine ⟨l.data ++ a, b ++ r.data, ?_⟩
  simp [String.data_append, hab]

theorem extract_loop_eq_filter_map (ds : List Detection)
    (acc : List UIElement) :
    ds.foldl
      (fun detected_ui d =>
        if d.conf > (0.5 : Rat) then detected_ui ++ [⟨d.text, d.bbox⟩]
        else detected_ui)
      acc
    = acc ++ (ds.filter (fun d => d.conf > (0.5 : Rat))).map
        (fun d => ⟨d.text, d.bbox⟩) := by
  induction ds generalizing acc with
  | nil => simp
  | cons d ds ih =>
      by_cases h : d.conf > (0.5 : Rat)
      · simp [List.foldl_cons, h, ih, List.filter_cons]
      · simp [List.foldl_cons, h, ih, List.filter_cons]

/-- C2: for every OCR outcome on a valid image, extract_ui_elements
returns exactly the subsequence of detections with confidence strictly
above 0.5, in the native OCR order with no re-sorting and no
deduplication, mapped to records with fields component and bounding_box;
and a detection whose confidence is exactly 0.5 is excluded. -/
theorem claim_C2 (screen : Screen) (ds : List Detection)
    (h : isEmptyInput screen = false) :
    extract_ui_elements screen (Except.ok ds)
      = Except.ok ((ds.filter (fun d => d.conf > (0.5 : Rat))).map
          (fun d => ⟨d.text, d.bbox⟩))
    ∧ ∀ d : Detection, d.conf = (0.5 : Rat) →
        extract_ui_elements screen (Except.ok [d]) = Except.ok [] := by
  constructor
  · simp only [extract_ui_elements, h, Bool.false_eq_true, if_false]
    rw [extract_loop_eq_filter_map]
    simp
  · intro d hd
    simp [extract_ui_elements, h, hd]

/-- Witness for C2 at the scenario of the spec: detections at confidence
0.9 and 0.3 plus one at exactly 0.5 yield exactly one element. -/
theorem claim_C2_witness :
    extract_ui_elements Screen.pilImage
      (Except.ok [⟨[(0, 0), (10, 0), (10, 5), (0, 5)], "Login", (9 : Rat)/10⟩,
                  ⟨[(1, 1), (2, 1), (2, 2), (1, 2)], "Cancel", (3 : Rat)/10⟩,
                  ⟨[(3, 3), (4, 3), (4, 4), (3, 4)], "Half", (1 : Rat)/2⟩])
      = Except.ok [⟨"Login", [(0, 0), (10, 0), (10, 5), (0, 5)]⟩] := by
  rw [(claim_C2 Screen.pilImage
       [⟨[(0, 0), (10, 0), (10, 5), (0, 5)], "Login", (9 : Rat)/10⟩,
        ⟨[(1, 1), (2, 1), (2, 2), (1, 2)], "Cancel", (3 : Rat)/10⟩,
        ⟨[(3, 3), (4, 3), (4, 4), (3, 4)], "Half", (1 : Rat)/2⟩] rfl).1]
  norm_num [List.filter_cons, List.filter_nil]

/-- C6: for a screen that is None, a string value, or a zero-size array,
extract_ui_elements returns the empty list for every OCR oracle, including
a raising one: the result does not depend on the engine, which in a pure
embedding is the statement that readtext is never consulted on that
input. -/
theorem claim_C6 (reader : Except String (List Detection)) (s : String) :
    extract_ui_elements Screen.noneScreen reader = Except.ok []
    ∧ extract_ui_elements (Screen.pathString s) reader = Except.ok []
    ∧ extract_ui_elements (Screen.ndarray 0) reader = Except.ok [] := by
  refine ⟨rfl, rfl, rfl⟩

/-- C9: the orchestration binds the Gherkin button to
generate_gherkin_from_ui with only the stage-1 output component: the user
story and summary components are not passed, although the function
declares three required parameters.  (At runtime every click of this
button therefore raises a TypeError inside the Gradio handler instead of
invoking the stage with its three declared inputs.) -/
theorem claim_C9 :
    generate_gherkin_btn_click.inputs = [Component.ui_data_model_output]
    ∧ generate_gherkin_btn_click.inputs.length ≠
        generate_gherkin_from_ui_params.length
    ∧ Component.user_story_input ∉ generate_gherkin_btn_click.inputs
    ∧ Component.summary_input ∉ generate_gherkin_btn_click.inputs := by
  refine ⟨rfl, by decide, by decide, by decide⟩

theorem tryCompletion_openAIError (comp : CompletionOracle)
    (sys prompt m : String)
    (h : comp sys prompt = CompletionResult.openAIError m) :
    tryCompletion comp sys prompt
      = json_dumps_obj_indent4 [("error", "OpenAI API error: " ++ m)] := by
  simp [tryCompletion, h]

theorem tryCompletion_otherError (comp : CompletionOracle)
    (sys prompt m : String)
    (h : comp sys prompt = CompletionResult.otherError m) :
    tryCompletion comp sys prompt
      = json_dumps_obj_indent4 [("error", "Unexpected error: " ++ m)] := by
  simp [tryCompletion, h]

theorem containsSub_colon_prefix (m : String) :
    ContainsSub "OpenAI API error" ("OpenAI API error: " ++ m) := by
  refine ⟨[], (": " ++ m).data, ?_⟩
  simp only [String.data_append, List.nil_append, List.append_assoc]
  rfl

theorem containsSub_colon_prefix_unexpected (m : String) :
    ContainsSub "Unexpected error" ("Unexpected error: " ++ m) := by
  refine ⟨[], (": " ++ m).data, ?_⟩
  simp only [String.data_append, List.nil_append, List.append_assoc]
  rfl

theorem isSingleKeyErrorJson_openAI (m : String) :
    IsSingleKeyErrorJson "OpenAI API error"
      (json_dumps_obj_indent4 [("error", "OpenAI API error: " ++ m)]) :=
  ⟨"OpenAI API error: " ++ m, rfl, containsSub_colon_prefix m⟩

theorem isSingleKeyErrorJson_unexpected (m : String) :
    IsSingleKeyErrorJson "Unexpected error"
      (json_dumps_obj_indent4 [("error", "Unexpected error: " ++ m)]) :=
  ⟨"Unexpected error: " ++ m, rfl, containsSub_colon_prefix_unexpected m⟩

/-- When the OCR oracle returns a detection list (no exception), stage 1
always reaches its completion call: it returns Except.ok of the wrapped
call on the prompt whose detected-elements slot is the sentinel when the
filtered list is empty and the rendered list otherwise. -/
theorem generate_ui_data_model_ok (us sm : Option String) (screen : Screen)
    (ds : List Detection) (comp : CompletionOracle) :
    generate_ui_data_model us sm screen (Except.ok ds) comp
      = Except.ok (tryCompletion comp ui_data_model_system_message
          (ui_data_model_prompt us sm
            (if (if isEmptyInput screen then []
                 else (ds.filter (fun d => d.conf > (0.5 : Rat))).map
                   (fun d => (⟨d.text, d.bbox⟩ : UIElement))).isEmpty
             then detectionSentinel
             else pyStrElements
               (if isEmptyInput screen then []
                else (ds.filter (fun d => d.conf > (0.5 : Rat))).map
                  (fun d => ⟨d.text, d.bbox⟩))))) := by
  cases h : isEmptyInput screen
  · simp only [generate_ui_data_model, extract_ui_elements, h,
      Bool.false_eq_true, if_false]
    rw [extract_loop_eq_filter_map]
    simp
  · simp [generate_ui_data_model, h]

/-- C1: for every stage, a completion call raising openai.OpenAIError
yields output that is exactly the indent-4 JSON object with the single key
error whose value contains the substring OpenAI API error, and any other
exception raised by the completion call yields the same shape with the
substring Unexpected error. -/
theorem claim_C1 (m : String) (us sm : Option String) (screen : Screen)
    (ds : List Detection) (ui g tc : String) (p t fmt : Option String)
    (compA compB : CompletionOracle)
    (hA : ∀ sys prompt, compA sys prompt = CompletionResult.openAIError m)
    (hB : ∀ sys prompt, compB sys prompt = CompletionResult.otherError m) :
    (∃ out, generate_ui_data_model us sm screen (Except.ok ds) compA
        = Except.ok out ∧ IsSingleKeyErrorJson "OpenAI API error" out)
    ∧ (∃ out, generate_ui_data_model us sm screen (Except.ok ds) compB
        = Except.ok out ∧ IsSingleKeyErrorJson "Unexpected error" out)
    ∧ IsSingleKeyErrorJson "OpenAI API error"
        (generate_gherkin_from_ui ui us sm compA)
    ∧ IsSingleKeyErrorJson "Unexpected error"
        (generate_gherkin_from_ui ui us sm compB)
    ∧ IsSingleKeyErrorJson "OpenAI API error" (generate_test_cases g p t compA)
    ∧ IsSingleKeyErrorJson "Unexpected error" (generate_test_cases g p t compB)
    ∧ IsSingleKeyErrorJson "OpenAI API error"
        (generate_feature_file tc p fmt compA)
    ∧ IsSingleKeyErrorJson "Unexpected error"
        (generate_feature_file tc p fmt compB) := by
  refine ⟨?_, ?_, ?_, ?_, ?_, ?_, ?_, ?_⟩
  · refine ⟨_, generate_ui_data_model_ok us sm screen ds compA, ?_⟩
    rw [tryCompletion_openAIError _ _ _ _ (hA _ _)]
    exact isSingleKeyErrorJson_openAI m
  · refine ⟨_, generate_ui_data_model_ok us sm screen ds compB, ?_⟩
    rw [tryCompletion_otherError _ _ _ _ (hB _ _)]
    exact isSingleKeyErrorJson_unexpected m
  · rw [generate_gherkin_from_ui, tryCompletion_openAIError _ _ _ _ (hA _ _)]
    exact isSingleKeyErrorJson_openAI m
  · rw [generate_gherkin_from_ui, tryCompletion_otherError _ _ _ _ (hB _ _)]
    exact isSingleKeyErrorJson_unexpected m
  · rw [generate_test_cases, tryCompletion_openAIError _ _ _ _ (hA _ _)]
    exact isSingleKeyErrorJson_openAI m
  · rw [generate_test_cases, tryCompletion_otherError _ _ _ _ (hB _ _)]
    exact isSingleKeyErrorJson_unexpected m
  · rw [generate_feature_file, tryCompletion_openAIError _ _ _ _ (hA _ _)]
    exact isSingleKeyErrorJson_openAI m
  · rw [generate_feature_file, tryCompletion_otherError _ _ _ _ (hB _ _)]
    exact isSingleKeyErrorJson_unexpected m

/-- Witness for C1 at concrete inputs, with constant failing oracles. -/
theorem claim_C1_witness :
    (∃ out, generate_ui_data_model (Option.some "story") Option.none
        Screen.noneScreen (Except.ok []) (constOpenAIError "quota")
        = Except.ok out ∧ IsSingleKeyErrorJson "OpenAI API error" out)
    ∧ (∃ out, generate_ui_data_model (Option.some "story") Option.none
        Screen.noneScreen (Except.ok []) (constOtherError "timeout")
        = Except.ok out ∧ IsSingleKeyErrorJson "Unexpected error" out)
    ∧ IsSingleKeyErrorJson "OpenAI API error"
        (generate_gherkin_from_ui "model" Option.none Option.none
          (constOpenAIError "quota"))
    ∧ IsSingleKeyErrorJson "Unexpected error"
        (generate_gherkin_from_ui "model" Option.none Option.none
          (constOtherError "timeout"))
    ∧ IsSingleKeyErrorJson "OpenAI API error"
        (generate_test_cases "story" (Option.some "Web") (Option.some "Selenium")
          (constOpenAIError "quota"))
    ∧ IsSingleKeyErrorJson "Unexpected error"
        (generate_test_cases "story" (Option.some "Web") (Option.some "Selenium")
          (constOtherError "timeout"))
    ∧ IsSingleKeyErrorJson "OpenAI API error"
        (generate_feature_file "cases" (Option.some "Web")
          (Option.some "Python (Behave)") (constOpenAIError "quota"))
    ∧ IsSingleKeyErrorJson "Unexpected error"
        (generate_feature_file "cases" (Option.some "Web")
          (Option.some "Python (Behave)") (constOtherError "timeout")) := by
  have h1 := claim_C1 "quota" (Option.some "story") Option.none Screen.noneScreen
    [] "model" "story" "cases" (Option.some "Web") (Option.some "Selenium")
    (Option.some "Python (Behave)") (constOpenAIError "quota")
    (constOtherError "quota") (fun _ _ => rfl) (fun _ _ => rfl)
  have h2 := claim_C1 "timeout" (Option.some "story") Option.none
    Screen.noneScreen [] "model" "story" "cases" (Option.some "Web")
    (Option.some "Selenium") (Option.some "Python (Behave)")
    (constOpenAIError "timeout") (constOtherError "timeout")
    (fun _ _ => rfl) (fun _ _ => rfl)
  exact ⟨h1.1, h2.2.1, h1.2.2.1, h2.2.2.2.1, h1.2.2.2.2.1, h2.2.2.2.2.2.1,
    h1.2.2.2.2.2.2.1, h2.2.2.2.2.2.2.2⟩

/-- C3 fails on the code: in generate_ui_data_model the OCR call sits
outside the try block, so an exception raised by the OCR engine on a valid
image propagates to the caller instead of being converted to a textual
failure value. -/
theorem claim_C3_counterexample :
    generate_ui_data_model (Option.some "login story") (Option.some "summary")
      Screen.pilImage (Except.error "OCR engine failure")
      (fun _ _ => CompletionResult.success "ok")
      = Except.error "OCR engine failure" := rfl

/-- C3 amended: every stage converts every exception of the completion
call to a textual value and stages 2 to 4 never raise at all, but stage 1
propagates an exception raised by the OCR engine on a valid image. -/
theorem claim_C3 (us sm : Option String) (screen : Screen)
    (ds : List Detection) (e : String) (ui g tc : String)
    (p t fmt : Option String) (comp : CompletionOracle) :
    (∃ out, generate_ui_data_model us sm screen (Except.ok ds) comp
        = Except.ok out)
    ∧ (isEmptyInput screen = false →
        generate_ui_data_model us sm screen (Except.error e) comp
          = Except.error e)
    ∧ generate_gherkin_from_ui ui us sm comp
        = tryCompletion comp gherkin_system_message (gherkin_prompt ui us sm)
    ∧ generate_test_cases g p t comp
        = tryCompletion comp test_cases_system_message (test_cases_prompt g p t)
    ∧ generate_feature_file tc p fmt comp
        = tryCompletion comp feature_file_system_message
            (feature_file_prompt tc
              (if pyTruthy p then p else Option.some "Web") fmt) := by
  refine ⟨⟨_, generate_ui_data_model_ok us sm screen ds comp⟩, ?_, rfl, rfl, rfl⟩
  intro h
  simp [generate_ui_data_model, extract_ui_elements, h]

/-- Witness for C3 at a concrete valid image and raising OCR oracle. -/
theorem claim_C3_witness :
    isEmptyInput Screen.pilImage = false
    ∧ generate_ui_data_model (Option.some "s") (Option.some "t")
        Screen.pilImage (Except.error "boom")
        (fun _ _ => CompletionResult.success "ok") = Except.error "boom" :=
  ⟨rfl, (claim_C3 (Option.some "s") (Option.some "t") Screen.pilImage []
    "boom" "" "" "" Option.none Option.none Option.none
    (fun _ _ => CompletionResult.success "ok")).2.1 rfl⟩

theorem containsSub_test_cases_prompt (g : String) (p t : Option String) :
    ContainsSub g (test_cases_prompt g p t) := by
  refine ⟨tcP0.data,
    (tcP1 ++ pyStrOpt p ++ tcP2 ++ pyStrOpt t ++ tcP3).data, ?_⟩
  simp [test_cases_prompt, String.data_append]

/-- C4: when generate_test_cases receives as gherkin_story the exact error
JSON produced by a failed stage 2, it does not short-circuit: the composed
prompt embeds that error text verbatim and the output is, for every
completion oracle, the wrapped completion call on that prompt. -/
theorem claim_C4 (m ui : String) (us sm : Option String)
    (p t : Option String) (comp : CompletionOracle) :
    ContainsSub (generate_gherkin_from_ui ui us sm (constOpenAIError m))
      (test_cases_prompt
        (generate_gherkin_from_ui ui us sm (constOpenAIError m)) p t)
    ∧ generate_test_cases
        (generate_gherkin_from_ui ui us sm (constOpenAIError m)) p t comp
        = tryCompletion comp test_cases_system_message
            (test_cases_prompt
              (generate_gherkin_from_ui ui us sm (constOpenAIError m)) p t) :=
  ⟨containsSub_test_cases_prompt _ p t, rfl⟩

theorem uiP0_split : uiP0 =
    "\n    You are a Business System Analyst creating a **UI Data Model** for developers.\n    Below are the provided inputs:\n    " ++
    "- **User Story**: " := rfl

theorem uiP1_split : uiP1 = "\n    " ++ "- **Summary/Description**: " := rfl

theorem uiP1_split_nl : uiP1 = "\n" ++ "    - **Summary/Description**: " := rfl

theorem uiP2_split : uiP2 =
    "\n    " ++ "- **Detected UI Elements (if available)**: " := rfl

theorem gkP0_split : gkP0 =
    "\n    You are an AI assistant trained to generate **structured Gherkin user stories**.\n    \n    Below are the provided inputs:\n    " ++
    "- **User Story**: " := rfl

theorem gkP1_split : gkP1 = "\n    " ++ "- **Summary/Description**: " := rfl

theorem gkP1_split_nl : gkP1 = "\n" ++ "    - **Summary/Description**: " := rfl

/-- C5 fails on the code: in generate_test_cases an empty platform
selector is embedded as-is, with no fallback text, so the composed prompt
carries an empty Target Platform field to the service.  The prompt with an
empty platform is literally the template with nothing in that slot. -/
theorem claim_C5_counterexample :
    test_cases_prompt "Scenario: login" (Option.some "")
        (Option.some "Selenium")
      = tcP0 ++ "Scenario: login" ++ tcP1 ++ tcP2 ++ "Selenium" ++ tcP3
    ∧ ContainsSub
        ("- Target Platform: " ++ "\n    - Recommended Technology: Selenium")
        (test_cases_prompt "Scenario: login" (Option.some "")
          (Option.some "Selenium")) := by
  constructor
  · apply String.ext
    simp [test_cases_prompt, pyStrOpt, String.data_append]
  · refine ⟨(tcP0 ++ "Scenario: login" ++
      "\n    \n    Generate **structured imperative test cases** suitable for **automation testing**.\n    ").data,
      tcP3.data, ?_⟩
    have e1 : tcP1 =
        "\n    \n    Generate **structured imperative test cases** suitable for **automation testing**.\n    " ++
        "- Target Platform: " := rfl
    have e2 : ("\n    - Recommended Technology: Selenium" : String)
        = tcP2 ++ "Selenium" := rfl
    have e3 : ("" : String).data = [] := rfl
    simp only [test_cases_prompt, pyStrOpt, e1, e2, e3, String.data_append,
      List.append_assoc, List.nil_append]

/-- C5 amended: the fallback-on-empty contract holds for the user story
and summary fields of stages 1 and 2 and for the platform selector of
stage 4 (defaulted to Web), but stage 3 embeds its platform and technology
selectors as-is with no fallback, and stage 4 embeds its
step-definition-format selector as-is with no fallback, so an empty
selector reaches the completion service as an empty field. -/
theorem claim_C5 (us sm p : Option String) (det ui g tc : String)
    (p2 t fmt : Option String) (comp : CompletionOracle)
    (h1 : pyTruthy us = false) (h2 : pyTruthy sm = false)
    (h3 : pyTruthy p = false) :
    ContainsSub ("- **User Story**: " ++ "No user story provided.")
      (ui_data_model_prompt us sm det)
    ∧ ContainsSub
        ("- **Summary/Description**: " ++ "No additional summary provided.")
        (ui_data_model_prompt us sm det)
    ∧ ContainsSub ("- **User Story**: " ++ "No user story provided.")
        (gherkin_prompt ui us sm)
    ∧ ContainsSub
        ("- **Summary/Description**: " ++ "No additional summary provided.")
        (gherkin_prompt ui us sm)
    ∧ generate_feature_file tc p fmt comp
        = generate_feature_file tc (Option.some "Web") fmt comp
    ∧ test_cases_prompt g p2 t
        = tcP0 ++ g ++ tcP1 ++ pyStrOpt p2 ++ tcP2 ++ pyStrOpt t ++ tcP3
    ∧ feature_file_prompt tc p2 fmt
        = ffP0 ++ tc ++ ffP1 ++ pyStrOpt p2 ++ ffP2 ++ pyStrOpt fmt ++
          ffP3 ++ pyStrOpt p2 ++ ffP4 := by
  have hus : fallbackIfFalsy us "No user story provided."
      = "No user story provided." := by
    simp [fallbackIfFalsy, h1]
  have hsm : fallbackIfFalsy sm "No additional summary provided."
      = "No additional summary provided." := by
    simp [fallbackIfFalsy, h2]
  refine ⟨?_, ?_, ?_, ?_, ?_, rfl, rfl⟩
  · refine ⟨("\n    You are a Business System Analyst creating a **UI Data Model** for developers.\n    Below are the provided inputs:\n    ").data,
      (uiP1 ++ fallbackIfFalsy sm "No additional summary provided." ++
       uiP2 ++ det ++ uiP3).data, ?_⟩
    simp only [ui_data_model_prompt, hus, uiP0_split, String.data_append,
      List.append_assoc]
  · refine ⟨(uiP0 ++ fallbackIfFalsy us "No user story provided." ++
      "\n    ").data, (uiP2 ++ det ++ uiP3).data, ?_⟩
    simp only [ui_data_model_prompt, hsm, uiP1_split, String.data_append,
      List.append_assoc]
  · refine ⟨("\n    You are an AI assistant trained to generate **structured Gherkin user stories**.\n    \n    Below are the provided inputs:\n    ").data,
      (gkP1 ++ fallbackIfFalsy sm "No additional summary provided." ++
       gkP2 ++ ui ++ gkP3).data, ?_⟩
    simp only [gherkin_prompt, hus, gkP0_split, String.data_append,
      List.append_assoc]
  · refine ⟨(gkP0 ++ fallbackIfFalsy us "No user story provided." ++
      "\n    ").data, (gkP2 ++ ui ++ gkP3).data, ?_⟩
    simp only [gherkin_prompt, hsm, gkP1_split, String.data_append,
      List.append_assoc]
  · have hp : (if pyTruthy p then p else Option.some "Web")
        = Option.some "Web" := by simp [h3]
    simp only [generate_feature_file, hp, ite_self]

/-- Witness for C5 amended, at empty fields. -/
theorem claim_C5_witness :
    pyTruthy (Option.none : Option String) = false
    ∧ ContainsSub ("- **User Story**: " ++ "No user story provided.")
        (ui_data_model_prompt Option.none Option.none "[]")
    ∧ generate_feature_file "cases" Option.none (Option.some "")
        (constOpenAIError "x")
      = generate_feature_file "cases" (Option.some "Web")
          (Option.some "") (constOpenAIError "x")
    ∧ feature_file_prompt "cases" (Option.some "") (Option.some "")
        = ffP0 ++ "cases" ++ ffP1 ++ pyStrOpt (Option.some "") ++ ffP2 ++
          pyStrOpt (Option.some "") ++ ffP3 ++ pyStrOpt (Option.some "") ++
          ffP4 := by
  have h := claim_C5 Option.none Option.none Option.none "[]" "ui" "g" "cases"
    (Option.some "") (Option.some "Selenium") (Option.some "")
    (constOpenAIError "x") rfl rfl rfl
  exact ⟨rfl, h.1, h.2.2.2.2.1, h.2.2.2.2.2.2⟩

/-- C7: whenever detection yields no element above the 0.5 threshold,
including the no-image case, stage 1 composes its prompt with the literal
no-elements sentinel text in the Detected UI Elements slot rather than an
empty list, and calls the completion service on that prompt. -/
theorem claim_C7 (us sm : Option String) (screen : Screen)
    (ds : List Detection) (comp : CompletionOracle)
    (h : ds.filter (fun d => d.conf > (0.5 : Rat)) = []
         ∨ isEmptyInput screen = true) :
    generate_ui_data_model us sm screen (Except.ok ds) comp
      = Except.ok (tryCompletion comp ui_data_model_system_message
          (ui_data_model_prompt us sm detectionSentinel))
    ∧ ContainsSub
        ("- **Detected UI Elements (if available)**: " ++ detectionSentinel)
        (ui_data_model_prompt us sm detectionSentinel) := by
  constructor
  · rw [generate_ui_data_model_ok]
    rcases h with h | h
    · cases hs : isEmptyInput screen <;> simp [h, hs]
    · simp [h]
  · refine ⟨(uiP0 ++ fallbackIfFalsy us "No user story provided." ++
      uiP1 ++ fallbackIfFalsy sm "No additional summary provided." ++
      "\n    ").data, uiP3.data, ?_⟩
    simp only [ui_data_model_prompt, uiP2_split, String.data_append,
      List.append_assoc]

/-- Witness for C7: an image whose detections all fall at or below the
threshold (here: none at all), and the no-image case folded in. -/
theorem claim_C7_witness :
    ([] : List Detection).filter (fun d => d.conf > (0.5 : Rat)) = []
    ∧ generate_ui_data_model (Option.some "story") (Option.some "sum")
        Screen.pilImage (Except.ok []) (constOpenAIError "x")
      = Except.ok (tryCompletion (constOpenAIError "x")
          ui_data_model_system_message
          (ui_data_model_prompt (Option.some "story") (Option.some "sum")
            detectionSentinel))
    ∧ ContainsSub
        ("- **Detected UI Elements (if available)**: " ++ detectionSentinel)
        (ui_data_model_prompt (Option.some "story") (Option.some "sum")
          detectionSentinel) := by
  have h := claim_C7 (Option.some "story") (Option.some "sum") Screen.pilImage
    [] (constOpenAIError "x") (Or.inl rfl)
  exact ⟨rfl, h.1, h.2⟩

/-- C8: with a falsy platform selector, generate_feature_file substitutes
the literal Web inside the function before composing its prompt: the
result equals the call with platform Web, the prompt composed is the one
with Web in the platform slots, and that prompt contains the token Web. -/
theorem claim_C8 (tc : String) (p fmt : Option String)
    (comp : CompletionOracle) (h : pyTruthy p = false) :
    generate_feature_file tc p fmt comp
      = tryCompletion comp feature_file_system_message
          (feature_file_prompt tc (Option.some "Web") fmt)
    ∧ generate_feature_file tc p fmt comp
        = generate_feature_file tc (Option.some "Web") fmt comp
    ∧ ContainsSub "Web" (feature_file_prompt tc (Option.some "Web") fmt) := by
  refine ⟨?_, ?_, ?_⟩
  · simp [generate_feature_file, h]
  · have hp : (if pyTruthy p then p else Option.some "Web")
        = Option.some "Web" := by simp [h]
    simp only [generate_feature_file, hp, ite_self]
  · refine ⟨(ffP0 ++ tc ++ ffP1).data,
      (ffP2 ++ pyStrOpt fmt ++ ffP3 ++ pyStrOpt (Option.some "Web") ++
       ffP4).data, ?_⟩
    simp only [feature_file_prompt, pyStrOpt, String.data_append,
      List.append_assoc]

/-- Witness for C8 at an unset (None) platform selector. -/
theorem claim_C8_witness :
    pyTruthy (Option.none : Option String) = false
    ∧ generate_feature_file "cases" Option.none (Option.some "Python (Behave)")
        (constOpenAIError "x")
      = tryCompletion (constOpenAIError "x") feature_file_system_message
          (feature_file_prompt "cases" (Option.some "Web")
            (Option.some "Python (Behave)"))
    ∧ ContainsSub "Web"
        (feature_file_prompt "cases" (Option.some "Web")
          (Option.some "Python (Behave)")) := by
  have h := claim_C8 "cases" Option.none (Option.some "Python (Behave)")
    (constOpenAIError "x") rfl
  exact ⟨rfl, h.1, h.2.2⟩

/-- C10: the emptiness test behind the user story and summary fallbacks is
Python falsiness, not blankness: a whitespace-only nonempty string is
embedded verbatim into the stage-1 and stage-2 prompts, and the fallback is
substituted exactly for None and for the empty string. -/
theorem claim_C10 (s : String) (sm : Option String) (det ui : String)
    (v : Option String) (fb : String) (h1 : s ≠ "")
    (_h2 : ∀ c ∈ s.data, c.isWhitespace = true) :
    fallbackIfFalsy (Option.some s) "No user story provided." = s
    ∧ fallbackIfFalsy (Option.some s) "No additional summary provided." = s
    ∧ ContainsSub ("- **User Story**: " ++ s ++ "\n")
        (ui_data_model_prompt (Option.some s) sm det)
    ∧ ContainsSub ("- **User Story**: " ++ s ++ "\n")
        (gherkin_prompt ui (Option.some s) sm)
    ∧ (pyTruthy v = false ↔ v = Option.none ∨ v = Option.some "")
    ∧ (pyTruthy v = false → fallbackIfFalsy v fb = fb) := by
  have hs : fallbackIfFalsy (Option.some s) "No user story provided." = s := by
    simp [fallbackIfFalsy, pyTruthy, pyStrOpt, String.isEmpty_iff, h1]
  have hs2 : fallbackIfFalsy (Option.some s) "No additional summary provided."
      = s := by
    simp [fallbackIfFalsy, pyTruthy, pyStrOpt, String.isEmpty_iff, h1]
  refine ⟨hs, hs2, ?_, ?_, ?_, ?_⟩
  · refine ⟨("\n    You are a Business System Analyst creating a **UI Data Model** for developers.\n    Below are the provided inputs:\n    ").data,
      ("    - **Summary/Description**: " ++
       fallbackIfFalsy sm "No additional summary provided." ++
       uiP2 ++ det ++ uiP3).data, ?_⟩
    simp only [ui_data_model_prompt, hs, uiP0_split, uiP1_split_nl,
      String.data_append, List.append_assoc]
  · refine ⟨("\n    You are an AI assistant trained to generate **structured Gherkin user stories**.\n    \n    Below are the provided inputs:\n    ").data,
      ("    - **Summary/Description**: " ++
       fallbackIfFalsy sm "No additional summary provided." ++
       gkP2 ++ ui ++ gkP3).data, ?_⟩
    simp only [gherkin_prompt, hs, gkP0_split, gkP1_split_nl,
      String.data_append, List.append_assoc]
  · cases v with
    | none => simp [pyTruthy]
    | some s2 => simp [pyTruthy, String.isEmpty_iff]
  · intro hv
    simp [fallbackIfFalsy, hv]

/-- Witness for C10 at the one-space string. -/
theorem claim_C10_witness :
    (" " : String) ≠ ""
    ∧ (∀ c ∈ (" " : String).data, c.isWhitespace = true)
    ∧ fallbackIfFalsy (Option.some " ") "No user story provided." = " "
    ∧ ContainsSub ("- **User Story**: " ++ " " ++ "\n")
        (ui_data_model_prompt (Option.some " ") (Option.some "sum") "[]")
    ∧ (pyTruthy (Option.some "") = false ↔
        (Option.some "" = Option.none ∨ Option.some "" = Option.some "")) := by
  have h := claim_C10 " " (Option.some "sum") "[]" "ui" (Option.some "")
    "fallback" (by decide) (by decide)
  exact ⟨by decide, by decide, h.1, h.2.2.1, h.2.2.2.2.1⟩
